import Mathlib

/-!
Verification development for the fabric-data-agent-accuracy-framework
repository.  The Python sources are shallowly embedded:

* strings that undergo character-level processing are `List Char`;
* numeric values (Python floats) are modelled as exact rationals `ℚ`;
* calls to external services (the agent client, the DAX/ground-truth
  service) are oracles returning `Except String α`, a raised exception
  being the `error` case carrying `str(e)`;
* print/logging statements and file I/O are not modelled, with one
  exception: a print in `test_single_case` whose format specifier raises
  and thereby changes the recorded status (see its doc comment);
* Python regular expressions are modelled by hand-rolled matchers that
  implement the exact leftmost, greedy, non-overlapping semantics of the
  concrete patterns appearing in the source (all of which are
  deterministic: no quantifier in them can backtrack to a different
  match), restricted to ASCII input, which is the domain the queries
  live in.
-/

set_option allowUnsafeReducibility true
attribute [local semireducible] Rat.add Rat.sub Rat.mul Rat.div Rat.inv Rat.neg Rat.blt

/-- Strings processed character by character. -/
abbrev Str := List Char

/-- Python `str.upper()` on ASCII text. -/
def toUpperStr (s : Str) : Str := s.map Char.toUpper

/-- Python substring containment `pat in s`. -/
def containsSub (pat : Str) : Str → Bool
  | [] => pat.isEmpty
  | c :: t => pat.isPrefixOf (c :: t) || containsSub pat t

/-- The ASCII characters matched by the regex class `\s`. -/
def isPySpace (c : Char) : Bool :=
  c = ' ' || c = '\t' || c = '\n' || c = '\r' || c = '\x0b' || c = '\x0c'

/-- The ASCII characters matched by the regex class `\w`. -/
def isWordChar (c : Char) : Bool := c.isAlphanum || c = '_'

/-- Case-insensitive literal match: strip `pat` (given in upper case) from
the front of `s`, returning the remainder. -/
def ciStrip : Str → Str → Option Str
  | [], s => some s
  | _ :: _, [] => none
  | p :: ps, c :: cs => if c.toUpper = p then ciStrip ps cs else none

/-! ## src/utils/sql_validator.py -/

/-- The five issue strings `validate_sql_syntax` can append, abstracted to
tags (their message text is never inspected by the code). -/
inductive SqlIssue
  | limitIssue
  | dateSubIssue
  | dateAddIssue
  | currentDateIssue
  | structureIssue
deriving DecidableEq, Repr

/-- Return value of `validate_sql_syntax`. -/
structure SyntaxCheck where
  valid : Bool
  issues : List SqlIssue
deriving DecidableEq, Repr

/-- `validate_sql_syntax` from src/utils/sql_validator.py: scan the
upper-cased query for four Spark-vs-T-SQL dialect mismatches and for the
presence of a SELECT/INSERT/UPDATE/DELETE keyword. -/
def validate_sql_syntax (sql : Str) : SyntaxCheck :=
  let sql_upper := toUpperStr sql
  let issues : List SqlIssue :=
    (if containsSub " LIMIT ".toList sql_upper then [SqlIssue.limitIssue] else []) ++
    (if containsSub "DATE_SUB(".toList sql_upper then [SqlIssue.dateSubIssue] else []) ++
    (if containsSub "DATE_ADD(".toList sql_upper &&
        !containsSub "DATEADD(".toList sql_upper then [SqlIssue.dateAddIssue] else []) ++
    (if containsSub "CURRENT_DATE".toList sql_upper &&
        !containsSub "GETDATE()".toList sql_upper then [SqlIssue.currentDateIssue] else []) ++
    (if !(containsSub "SELECT".toList sql_upper || containsSub "INSERT".toList sql_upper ||
          containsSub "UPDATE".toList sql_upper || containsSub "DELETE".toList sql_upper)
       then [SqlIssue.structureIssue] else [])
  { valid := issues.length == 0, issues := issues }

/-- Number of the four dialect-mismatch detectors of `validate_sql_syntax`
that fire on a query (the structure check excluded). -/
def dialectMismatchCount (sql : Str) : Nat :=
  let sql_upper := toUpperStr sql
  (if containsSub " LIMIT ".toList sql_upper then 1 else 0) +
  (if containsSub "DATE_SUB(".toList sql_upper then 1 else 0) +
  (if containsSub "DATE_ADD(".toList sql_upper &&
      !containsSub "DATEADD(".toList sql_upper then 1 else 0) +
  (if containsSub "CURRENT_DATE".toList sql_upper &&
      !containsSub "GETDATE()".toList sql_upper then 1 else 0)

/-- Match the regex `\sLIMIT\s+(\d+)` (IGNORECASE) at the head of `s`,
returning the captured digit group and the remainder after the match.
The quantifiers are deterministic here: `\s+` cannot end before a
non-space and `\d+` cannot end before a non-digit. -/
def matchLimitAt (s : Str) : Option (Str × Str) :=
  match s with
  | [] => none
  | c :: rest =>
    if isPySpace c then
      match ciStrip "LIMIT".toList rest with
      | none => none
      | some r1 =>
        if (r1.takeWhile isPySpace).isEmpty then none
        else
          let r2 := r1.dropWhile isPySpace
          let ds := r2.takeWhile Char.isDigit
          if ds.isEmpty then none else some (ds, r2.dropWhile Char.isDigit)
    else none

/-- `re.search(r'\sLIMIT\s+(\d+)', s, re.IGNORECASE)`: digit group of the
leftmost match, if any. -/
def searchLimit : Str → Option Str
  | [] => none
  | c :: t =>
    match matchLimitAt (c :: t) with
    | some (ds, _) => some ds
    | none => searchLimit t

/-- Worker for `re.sub(r'\sLIMIT\s+\d+', '', s, flags=re.IGNORECASE)`:
leftmost non-overlapping matches are removed.  The fuel argument only
serves structural recursion; `s.length` steps always suffice because
every step consumes at least one character. -/
def subLimitAllAux : Nat → Str → Str
  | 0, s => s
  | _ + 1, [] => []
  | fuel + 1, c :: t =>
    match matchLimitAt (c :: t) with
    | some (_, rest) => subLimitAllAux fuel rest
    | none => c :: subLimitAllAux fuel t

/-- `re.sub(r'\sLIMIT\s+\d+', '', s, flags=re.IGNORECASE)`. -/
def subLimitAll (s : Str) : Str := subLimitAllAux s.length s

/-- Match the regex `SELECT\s+` (IGNORECASE) at the head of `s`, returning
the remainder after the match. -/
def matchSelectAt (s : Str) : Option Str :=
  match ciStrip "SELECT".toList s with
  | none => none
  | some r =>
    if (r.takeWhile isPySpace).isEmpty then none
    else some (r.dropWhile isPySpace)

/-- `re.sub(r'SELECT\s+', 'SELECT TOP n ', s, count=1, flags=re.IGNORECASE)`:
only the leftmost match is replaced. -/
def subSelectOnce (n : Str) : Str → Str
  | [] => []
  | c :: t =>
    match matchSelectAt (c :: t) with
    | some rest => "SELECT TOP ".toList ++ n ++ [' '] ++ rest
    | none => c :: subSelectOnce n t

/-- Match the regex `DATE_SUB\(([^,]+),\s*(\d+)\)` (IGNORECASE) at the head
of `s`, returning the two captured groups and the remainder.  `[^,]+` is
forced to stop at the first comma, so the match is deterministic. -/
def matchDateSubAt (s : Str) : Option (Str × Str × Str) :=
  match ciStrip "DATE_SUB(".toList s with
  | none => none
  | some r =>
    let a := r.takeWhile (fun c => !(c = ','))
    if a.isEmpty then none
    else
      match r.dropWhile (fun c => !(c = ',')) with
      | ',' :: r2 =>
        let r3 := r2.dropWhile isPySpace
        let ds := r3.takeWhile Char.isDigit
        if ds.isEmpty then none
        else
          match r3.dropWhile Char.isDigit with
          | ')' :: r5 => some (a, ds, r5)
          | _ => none
      | _ => none

/-- Does `DATE_SUB\(([^,]+),\s*(\d+)\)` match at some position of `s`? -/
def hasDateSubMatch : Str → Bool
  | [] => false
  | c :: t => (matchDateSubAt (c :: t)).isSome || hasDateSubMatch t

/-- Worker for the `DATE_SUB` rewrite
`re.sub(r"DATE_SUB\(([^,]+),\s*(\d+)\)", r"DATEADD(DAY, -\2, \1)", s, flags=re.IGNORECASE)`.
Replacement text is emitted, never rescanned. -/
def subDateSubAllAux : Nat → Str → Str
  | 0, s => s
  | _ + 1, [] => []
  | fuel + 1, c :: t =>
    match matchDateSubAt (c :: t) with
    | some (a, ds, rest) =>
      "DATEADD(DAY, -".toList ++ ds ++ ", ".toList ++ a ++ [')'] ++ subDateSubAllAux fuel rest
    | none => c :: subDateSubAllAux fuel t

/-- The `DATE_SUB(date, N) -> DATEADD(DAY, -N, date)` rewrite. -/
def subDateSubAll (s : Str) : Str := subDateSubAllAux s.length s

/-- Does the literal `CURRENT_DATE` (IGNORECASE) occur at some position? -/
def hasCurrentDateOcc : Str → Bool
  | [] => false
  | c :: t => (ciStrip "CURRENT_DATE".toList (c :: t)).isSome || hasCurrentDateOcc t

/-- Worker for
`re.sub(r"CURRENT_DATE", "CAST(GETDATE() AS DATE)", s, flags=re.IGNORECASE)`. -/
def subCurrentDateAllAux : Nat → Str → Str
  | 0, s => s
  | _ + 1, [] => []
  | fuel + 1, c :: t =>
    match ciStrip "CURRENT_DATE".toList (c :: t) with
    | some rest => "CAST(GETDATE() AS DATE)".toList ++ subCurrentDateAllAux fuel rest
    | none => c :: subCurrentDateAllAux fuel t

/-- The `CURRENT_DATE -> CAST(GETDATE() AS DATE)` rewrite. -/
def subCurrentDateAll (s : Str) : Str := subCurrentDateAllAux s.length s

/-- `convert_spark_to_tsql` from src/utils/sql_validator.py: LIMIT-to-TOP
rewrite (when `\sLIMIT\s+(\d+)` matches), then the `DATE_SUB` rewrite,
then the `CURRENT_DATE` rewrite. -/
def convert_spark_to_tsql (sql : Str) : Str :=
  let result := sql
  let result :=
    match searchLimit result with
    | some n => subSelectOnce n (subLimitAll result)
    | none => result
  let result := subDateSubAll result
  subCurrentDateAll result

/-! ## src/utils/pbip_extractor.py -/

/-- The six aggregate branches of `convert_dax_to_example`, in source
order. -/
inductive AggFunc
  | distinctCount
  | sum
  | average
  | count
  | max
  | min
deriving DecidableEq, Repr

/-- Return value of `convert_dax_to_example` (the four dictionary keys). -/
structure DaxExample where
  question : Str
  sql : Str
  source : Str
  original_dax : Str
deriving DecidableEq, Repr

/-- Match the regex `FUNC\((\w+)\[(\w+)\]\)` (IGNORECASE) at the head of
`s`, where `funcU` is the function name in upper case; returns the two
captured groups (table, column).  `\w+` cannot cross the following
bracket, so the match is deterministic. -/
def matchAggAt (funcU : Str) (s : Str) : Option (Str × Str) :=
  match ciStrip (funcU ++ ['(']) s with
  | none => none
  | some r =>
    let table := r.takeWhile isWordChar
    if table.isEmpty then none
    else
      match r.dropWhile isWordChar with
      | '[' :: r2 =>
        let column := r2.takeWhile isWordChar
        if column.isEmpty then none
        else
          match r2.dropWhile isWordChar with
          | ']' :: ')' :: _ => some (table, column)
          | _ => none
      | _ => none

/-- `re.search` for `FUNC\((\w+)\[(\w+)\]\)` (IGNORECASE): captured groups
of the leftmost match. -/
def searchAgg (funcU : Str) : Str → Option (Str × Str)
  | [] => none
  | c :: t =>
    match matchAggAt funcU (c :: t) with
    | some tc => some tc
    | none => searchAgg funcU t

/-- The upper-cased regex function name used by each branch. -/
def funcPat : AggFunc → Str
  | .distinctCount => "DISTINCTCOUNT".toList
  | .sum => "SUM".toList
  | .average => "AVERAGE".toList
  | .count => "COUNT".toList
  | .max => "MAX".toList
  | .min => "MIN".toList

/-- The branch-guard conditions of `convert_dax_to_example`, evaluated on
the upper-cased expression, in source order: this is the explicit
priority list of (marker, builder) rules the spec describes. -/
def selectedBranch (dax_expression : Str) : Option AggFunc :=
  let dax_upper := toUpperStr dax_expression
  if containsSub "DISTINCTCOUNT".toList dax_upper then some AggFunc.distinctCount
  else if containsSub "SUM(".toList dax_upper &&
      !containsSub "SUMX".toList dax_upper then some AggFunc.sum
  else if containsSub "AVERAGE(".toList dax_upper then some AggFunc.average
  else if containsSub "COUNT(".toList dax_upper &&
      !containsSub "DISTINCTCOUNT".toList dax_upper then some AggFunc.count
  else if containsSub "MAX(".toList dax_upper then some AggFunc.max
  else if containsSub "MIN(".toList dax_upper then some AggFunc.min
  else none

/-- The natural-language question template of each branch, applied to the
lower-cased measure name. -/
def questionFor (f : AggFunc) (measure_name : Str) : Str :=
  match f with
  | .distinctCount => "How many total ".toList ++ measure_name.map Char.toLower ++ ['?']
  | .sum => "What is the total ".toList ++ measure_name.map Char.toLower ++ ['?']
  | .average => "What is the average ".toList ++ measure_name.map Char.toLower ++ ['?']
  | .count => "How many ".toList ++ measure_name.map Char.toLower ++ ['?']
  | .max => "What is the maximum ".toList ++ measure_name.map Char.toLower ++ ['?']
  | .min => "What is the minimum ".toList ++ measure_name.map Char.toLower ++ ['?']

/-- The SQL template of each branch: the branch aggregate over the
captured column (`average` widening through a FLOAT cast), aliased to the
measure name, from the dbo-qualified captured table. -/
def sqlFor (f : AggFunc) (table column measure_name : Str) : Str :=
  match f with
  | .distinctCount =>
    "SELECT COUNT(DISTINCT ".toList ++ column ++ ") AS ".toList ++ measure_name ++
      " FROM dbo.".toList ++ table
  | .sum =>
    "SELECT SUM(".toList ++ column ++ ") AS ".toList ++ measure_name ++
      " FROM dbo.".toList ++ table
  | .average =>
    "SELECT AVG(CAST(".toList ++ column ++ " AS FLOAT)) AS ".toList ++ measure_name ++
      " FROM dbo.".toList ++ table
  | .count =>
    "SELECT COUNT(".toList ++ column ++ ") AS ".toList ++ measure_name ++
      " FROM dbo.".toList ++ table
  | .max =>
    "SELECT MAX(".toList ++ column ++ ") AS ".toList ++ measure_name ++
      " FROM dbo.".toList ++ table
  | .min =>
    "SELECT MIN(".toList ++ column ++ ") AS ".toList ++ measure_name ++
      " FROM dbo.".toList ++ table

/-- The example dictionary built by branch `f` from the captured
(table, column). -/
def buildExample (f : AggFunc) (measure_name dax_expression table column : Str) : DaxExample :=
  { question := questionFor f measure_name
    sql := sqlFor f table column measure_name
    source := "pbip_measure".toList
    original_dax := dax_expression }

/-- `convert_dax_to_example` from src/utils/pbip_extractor.py, written as
the source's if/elif chain. -/
def convert_dax_to_example (measure_name dax_expression : Str) : Option DaxExample :=
  let dax_upper := toUpperStr dax_expression
  if containsSub "DISTINCTCOUNT".toList dax_upper then
    match searchAgg "DISTINCTCOUNT".toList dax_expression with
    | some (table, column) =>
      some { question := "How many total ".toList ++ measure_name.map Char.toLower ++ ['?']
             sql := "SELECT COUNT(DISTINCT ".toList ++ column ++ ") AS ".toList ++
               measure_name ++ " FROM dbo.".toList ++ table
             source := "pbip_measure".toList
             original_dax := dax_expression }
    | none => none
  else if containsSub "SUM(".toList dax_upper && !containsSub "SUMX".toList dax_upper then
    match searchAgg "SUM".toList dax_expression with
    | some (table, column) =>
      some { question := "What is the total ".toList ++ measure_name.map Char.toLower ++ ['?']
             sql := "SELECT SUM(".toList ++ column ++ ") AS ".toList ++
               measure_name ++ " FROM dbo.".toList ++ table
             source := "pbip_measure".toList
             original_dax := dax_expression }
    | none => none
  else if containsSub "AVERAGE(".toList dax_upper then
    match searchAgg "AVERAGE".toList dax_expression with
    | some (table, column) =>
      some { question := "What is the average ".toList ++ measure_name.map Char.toLower ++ ['?']
             sql := "SELECT AVG(CAST(".toList ++ column ++ " AS FLOAT)) AS ".toList ++
               measure_name ++ " FROM dbo.".toList ++ table
             source := "pbip_measure".toList
             original_dax := dax_expression }
    | none => none
  else if containsSub "COUNT(".toList dax_upper &&
      !containsSub "DISTINCTCOUNT".toList dax_upper then
    match searchAgg "COUNT".toList dax_expression with
    | some (table, column) =>
      some { question := "How many ".toList ++ measure_name.map Char.toLower ++ ['?']
             sql := "SELECT COUNT(".toList ++ column ++ ") AS ".toList ++
               measure_name ++ " FROM dbo.".toList ++ table
             source := "pbip_measure".toList
             original_dax := dax_expression }
    | none => none
  else if containsSub "MAX(".toList dax_upper then
    match searchAgg "MAX".toList dax_expression with
    | some (table, column) =>
      some { question := "What is the maximum ".toList ++ measure_name.map Char.toLower ++ ['?']
             sql := "SELECT MAX(".toList ++ column ++ ") AS ".toList ++
               measure_name ++ " FROM dbo.".toList ++ table
             source := "pbip_measure".toList
             original_dax := dax_expression }
    | none => none
  else if containsSub "MIN(".toList dax_upper then
    match searchAgg "MIN".toList dax_expression with
    | some (table, column) =>
      some { question := "What is the minimum ".toList ++ measure_name.map Char.toLower ++ ['?']
             sql := "SELECT MIN(".toList ++ column ++ ") AS ".toList ++
               measure_name ++ " FROM dbo.".toList ++ table
             source := "pbip_measure".toList
             original_dax := dax_expression }
    | none => none
  else none

/-! ## src/notebooks/05_Accuracy_Testing.py

Questions, DAX expressions, metric names and SQL text are opaque at this
layer, so they stay Lean `String`s.  Numeric cells are `ℚ`. -/

/-- Python's `abs` on a rational, written so that the kernel can evaluate
it (`ratAbs_eq_abs` below shows it is the mathematical absolute value). -/
def ratAbs (x : ℚ) : ℚ := if x < 0 then -x else x

/-- A row of agent response data: Python returns either an ordered
list/tuple row or a keyed dict row. -/
inductive Row
  | tuple (cells : List ℚ)
  | record (cells : List (String × ℚ))
deriving DecidableEq

/-- The agent response dictionary, reduced to the `data` key, the only
one `extract_numeric_value` reads (a missing or `None` value is the empty
list). -/
structure AgentResponse where
  data : List Row
deriving DecidableEq

/-- The external Fabric data-agent client: `query`, `add_example` and
`publish` are latency-bearing service calls, so each is an oracle whose
`error` case is a raised exception carrying `str(e)`. -/
structure Client where
  query : String → Except String AgentResponse
  add_example : String → String → Except String Unit
  publish : Unit → Except String Unit

/-- The sempy ground-truth service: `fabric.evaluate_dax` followed by
`float(df.iloc[0, 0])`, collapsed to one oracle producing the scalar
baseline (any exception on the way is its `error` case). -/
structure DaxOracle where
  evaluate_dax : String → Except String ℚ

/-- The `TestCase` dataclass. -/
structure TestCase where
  question : String
  expected_dax : String
  metric_name : String
  description : Option String
deriving DecidableEq

/-- The result dictionary built by `test_single_case`.  The `error` key is
only ever added in the exception handler, hence `Option`. -/
structure TestResult where
  question : String
  metric : String
  status : String
  agent_value : Option ℚ
  expected_value : Option ℚ
  difference : Option ℚ
  error : Option String
deriving DecidableEq

/-- `extract_numeric_value`: first numeric cell of the first data row;
`0.0` when no data came back (or the first row is an empty tuple); an
empty dict row raises IndexError inside the caller's try block. -/
def extract_numeric_value (response : AgentResponse) : Except String ℚ :=
  match response.data with
  | [] => .ok 0
  | first_row :: _ =>
    match first_row with
    | .tuple (x :: _) => .ok x
    | .tuple [] => .ok 0
    | .record ((_, v) :: _) => .ok v
    | .record [] => .error "list index out of range"

/-- `test_single_case`: query the agent, extract the numeric value, query
the ground truth, then compare — `expected == 0` demands an exact zero
from the agent, otherwise the code computes
`difference = |agent - expected| / expected` (the denominator is the
SIGNED expected value in the source) and passes iff
`difference <= tolerance`.  Any exception along the way is caught and
recorded as status `error` with the message, keeping the fields already
assigned.  One print statement is control-flow relevant and therefore
modelled: in the `expected == 0`, `agent != 0` branch the FAIL print
formats `result["difference"]` — still `None` there — with `:.2%`, which
raises a TypeError inside the try block, so the handler overwrites the
just-assigned `fail` with `error`. -/
def test_single_case (c : Client) (d : DaxOracle) (tc : TestCase) (tolerance : ℚ) :
    TestResult :=
  let result : TestResult :=
    { question := tc.question, metric := tc.metric_name, status := "unknown",
      agent_value := none, expected_value := none, difference := none, error := none }
  match c.query tc.question with
  | .error e => { result with status := "error", error := some e }
  | .ok agent_response =>
    match extract_numeric_value agent_response with
    | .error e => { result with status := "error", error := some e }
    | .ok agent_value =>
      let result := { result with agent_value := some agent_value }
      match d.evaluate_dax tc.expected_dax with
      | .error e => { result with status := "error", error := some e }
      | .ok expected_value =>
        let result := { result with expected_value := some expected_value }
        if expected_value = 0 then
          if agent_value = 0 then { result with status := "pass" }
          else
            { result with
                status := "error"
                error := some "unsupported format string passed to NoneType.__format__" }
        else
          let difference := ratAbs (agent_value - expected_value) / expected_value
          let result := { result with difference := some difference }
          if difference ≤ tolerance then { result with status := "pass" }
          else { result with status := "fail" }

/-- The tester's mutable state: `self.results`. -/
structure TesterState where
  results : List TestResult
deriving DecidableEq

/-- The summary dictionary returned by `run_test_suite`. -/
structure SuiteSummary where
  total : Nat
  passed : Nat
  failed : Nat
  errors : Nat
  accuracy : ℚ
  results : List TestResult
deriving DecidableEq

/-- `run_test_suite`: reset `self.results` to a fresh empty list, run
every case in order through `test_single_case` (each appends its result),
then compute the summary, with `accuracy = passed / total if total > 0
else 0`. -/
def run_test_suite (c : Client) (d : DaxOracle) (st : TesterState)
    (test_cases : List TestCase) : TesterState × SuiteSummary :=
  let st0 : TesterState := { st with results := [] }
  let st1 := test_cases.foldl
    (fun s tc => { results := s.results ++ [test_single_case c d tc (1/100)] }) st0
  let passed := (st1.results.filter (fun r => r.status == "pass")).length
  let failed := (st1.results.filter (fun r => r.status == "fail")).length
  let errors := (st1.results.filter (fun r => r.status == "error")).length
  let total := st1.results.length
  let accuracy : ℚ := if total > 0 then (passed : ℚ) / (total : ℚ) else 0
  (st1, { total := total, passed := passed, failed := failed, errors := errors,
          accuracy := accuracy, results := st1.results })

/-- `get_failures`: the results whose status is exactly `fail`. -/
def get_failures (results : List TestResult) : List TestResult :=
  results.filter (fun r => r.status == "fail")

/-! ## src/notebooks/06_Self_Learning.py -/

/-- The learning-summary dictionary of `self_learn_from_failures`. -/
structure LearnSummary where
  learned : Nat
  skipped : Nat
deriving DecidableEq

/-- The `templates` dictionary lookup of `generate_correct_sql`
(strategy `template`). -/
def template_sql (metric : String) : Option String :=
  if metric == "TotalUsers" then
    some "SELECT COUNT(DISTINCT UserId) AS TotalUsers FROM dbo.UsageMetrics"
  else if metric == "AvgSatisfaction" then
    some "SELECT AVG(SatisfactionRate) AS AvgSatisfaction FROM dbo.UsageMetrics"
  else if metric == "TotalSessions" then
    some "SELECT SUM(Sessions) AS TotalSessions FROM dbo.UsageMetrics"
  else if metric == "RegionCount" then
    some "SELECT COUNT(DISTINCT Region) AS RegionCount FROM dbo.UsageMetrics"
  else none

/-- `generate_correct_sql`: template lookup keyed by the failure's metric.
The failure records the tester writes carry no `expected_dax` key, so
under strategy `dax_convert` the source reads an empty DAX string and
every containment check misses, falling through to `None`. -/
def generate_correct_sql (failure : TestResult) (strategy : String) : Option String :=
  if strategy == "template" then template_sql failure.metric
  else none

/-- `self_learn_from_failures`: for each failure, a missing template is
counted as skipped; otherwise `client.add_example` is attempted, an
exception being caught and counted as skipped, a success counted as
learned.  The function itself never raises. -/
def self_learn_from_failures (c : Client) (failures : List TestResult) : LearnSummary :=
  failures.foldl
    (fun acc failure =>
      match generate_correct_sql failure "template" with
      | none => { acc with skipped := acc.skipped + 1 }
      | some correct_sql =>
        match c.add_example failure.question correct_sql with
        | .ok _ => { acc with learned := acc.learned + 1 }
        | .error _ => { acc with skipped := acc.skipped + 1 })
    { learned := 0, skipped := 0 }

/-- The body of `continuous_improvement_cycle`'s `for` loop, on the count
of remaining iterations.  `client.publish()` is called bare in the source
(the guarded `publish_updated_agent` wrapper is not used here), so a
publish exception propagates out of the whole cycle: that is the `error`
result. -/
def cic_loop (c : Client) (d : DaxOracle) (test_cases : List TestCase) :
    Nat → TesterState → Except String Unit
  | 0, _ => .ok ()
  | remaining + 1, st =>
    let (st1, summary) := run_test_suite c d st test_cases
    if (95 : ℚ)/100 ≤ summary.accuracy then .ok ()
    else
      let failures := get_failures st1.results
      if failures.isEmpty then .ok ()
      else
        let _ := self_learn_from_failures c failures
        match c.publish () with
        | .error e => .error e
        | .ok _ => cic_loop c d test_cases remaining st1

/-- `continuous_improvement_cycle`: at most `max_iterations` rounds of
test → learn → publish, stopping early at 95% accuracy or when no
failures remain; `ok` models falling off the loop normally. -/
def continuous_improvement_cycle (c : Client) (d : DaxOracle)
    (test_cases : List TestCase) (max_iterations : Nat) : Except String Unit :=
  cic_loop c d test_cases max_iterations { results := [] }

/-! ## Concrete fixtures used by witnesses and counterexamples. -/

/-- A client whose agent always answers one row containing `v`, whose
`add_example` always succeeds and whose `publish` returns `pub`. -/
def mkClient (v : ℚ) (pub : Except String Unit) : Client :=
  { query := fun _ => .ok { data := [Row.tuple [v]] }
    add_example := fun _ _ => .ok ()
    publish := fun _ => pub }

/-- A client whose agent query always raises `msg`. -/
def errClient (msg : String) : Client :=
  { query := fun _ => .error msg
    add_example := fun _ _ => .ok ()
    publish := fun _ => .ok () }

/-- A ground-truth oracle that always returns `v`. -/
def mkDax (v : ℚ) : DaxOracle := { evaluate_dax := fun _ => .ok v }

/-- A ground-truth oracle that always raises `msg`. -/
def errDax (msg : String) : DaxOracle := { evaluate_dax := fun _ => .error msg }

/-- The first test case of the notebook's suite. -/
def tcUsers : TestCase :=
  { question := "How many total users?"
    expected_dax := "DISTINCTCOUNT(UsageMetrics[UserId])"
    metric_name := "TotalUsers"
    description := none }

/-- A query whose only dialect mismatch is a `DATE_ADD` call. -/
def qDateAdd : Str := "SELECT DATE_ADD(OrderDate, 7) FROM dbo.Orders".toList

/-- A query whose only dialect mismatch is a `LIMIT` clause, in the exact
shape the rewriter targets. -/
def qLimit : Str := "SELECT * FROM dbo.Users LIMIT 10".toList

/-- A query whose only dialect mismatch is a `DATE_SUB` call, in the exact
shape the rewriter targets. -/
def qDateSub : Str :=
  "SELECT * FROM dbo.Users WHERE OrderDate >= DATE_SUB(OrderDate, 7)".toList

/-- A query whose only dialect mismatch is a `CURRENT_DATE` token. -/
def qCurrentDate : Str := "SELECT CURRENT_DATE FROM dbo.Users".toList

/-- An already-conformant T-SQL query. -/
def qTsqlOk : Str :=
  "SELECT TOP 10 * FROM dbo.Users WHERE OrderDate >= DATEADD(DAY, -7, GETDATE())".toList

/-! ## Helper lemmas -/

/-- `ratAbs` is the mathematical absolute value. -/
lemma ratAbs_eq_abs (x : ℚ) : ratAbs x = |x| := by
  unfold ratAbs
  split_ifs with h
  · exact (abs_of_neg h).symm
  · exact (abs_of_nonneg (not_lt.mp h)).symm

/-- A run's accumulated results are one result per case, in input order. -/
lemma foldl_results (c : Client) (d : DaxOracle) (tcs : List TestCase)
    (acc : List TestResult) :
    (tcs.foldl
        (fun s tc => { results := s.results ++ [test_single_case c d tc (1/100)] })
        (⟨acc⟩ : TesterState)).results
      = acc ++ tcs.map (fun tc => test_single_case c d tc (1/100)) := by
  induction tcs generalizing acc with
  | nil => simp
  | cons tc tcs ih => simpa [List.foldl] using ih (acc ++ [test_single_case c d tc (1/100)])

/-- `run_test_suite` produces exactly the per-case results, in order. -/
lemma run_test_suite_results (c : Client) (d : DaxOracle) (st : TesterState)
    (tcs : List TestCase) :
    ( run_test_suite c d st tcs).1.results
      = tcs.map (fun tc => test_single_case c d tc (1/100)) := by
  unfold run_test_suite
  simpa using foldl_results c d tcs []

/-- Every result status is one of pass, fail, error. -/
lemma status_trichotomy (c : Client) (d : DaxOracle) (tc : TestCase) (tol : ℚ) :
    (test_single_case c d tc tol).status = "pass"
      ∨ (test_single_case c d tc tol).status = "fail"
      ∨ (test_single_case c d tc tol).status = "error" := by
  rcases hq : c.query tc.question with e | resp
  · simp [test_single_case, hq]
  · rcases hx : extract_numeric_value resp with e | v
    · simp [test_single_case, hq, hx]
    · rcases hdx : d.evaluate_dax tc.expected_dax with e | ev
      · simp [test_single_case, hq, hx, hdx]
      · by_cases h0 : ev = 0
        · by_cases ha : v = 0 <;> simp [test_single_case, hq, hx, hdx, h0, ha]
        · by_cases hd : ratAbs (v - ev) / ev ≤ tol <;>
            simp [test_single_case, hq, hx, hdx, h0, hd]

/-- If `DATE_SUB\(([^,]+),\s*(\d+)\)` matches nowhere, the rewrite is the
identity, for any amount of fuel. -/
lemma subDateSubAllAux_id (fuel : Nat) (s : Str) (h : hasDateSubMatch s = false) :
    subDateSubAllAux fuel s = s := by
  induction fuel generalizing s with
  | zero => rfl
  | succ n ih =>
    cases s with
    | nil => rfl
    | cons c t =>
      have h2 : (matchDateSubAt (c :: t)).isSome = false ∧ hasDateSubMatch t = false := by
        simpa [hasDateSubMatch] using h
      cases hm : matchDateSubAt (c :: t) with
      | none => simp [subDateSubAllAux, hm, ih t h2.2]
      | some v => rw [hm] at h2; simp at h2

/-- If `CURRENT_DATE` occurs nowhere, the rewrite is the identity. -/
lemma subCurrentDateAllAux_id (fuel : Nat) (s : Str) (h : hasCurrentDateOcc s = false) :
    subCurrentDateAllAux fuel s = s := by
  induction fuel generalizing s with
  | zero => rfl
  | succ n ih =>
    cases s with
    | nil => rfl
    | cons c t =>
      have h2 : (ciStrip "CURRENT_DATE".toList (c :: t)).isSome = false
          ∧ hasCurrentDateOcc t = false := by
        simpa [hasCurrentDateOcc] using h
      cases hm : ciStrip "CURRENT_DATE".toList (c :: t) with
      | none => simp only [subCurrentDateAllAux, hm, ih t h2.2]
      | some v => rw [hm] at h2; simp at h2

/-- When none of the three rewrite patterns matches anywhere,
`convert_spark_to_tsql` returns its input unchanged. -/
lemma convert_id (q : Str) (h1 : searchLimit q = none) (h2 : hasDateSubMatch q = false)
    (h3 : hasCurrentDateOcc q = false) :
    convert_spark_to_tsql q = q := by
  unfold convert_spark_to_tsql subDateSubAll subCurrentDateAll
  simp only [h1]
  rw [subDateSubAllAux_id _ _ h2, subCurrentDateAllAux_id _ _ h3]

/-- `convert_dax_to_example` is the ordered-rule translator: select the
first branch whose marker fires, then capture `(table, column)` with that
branch's shape regex, then build the example from the branch templates. -/
lemma convert_eq_spec (name expr : Str) :
    convert_dax_to_example name expr =
      match selectedBranch expr with
      | none => none
      | some f =>
        match searchAgg (funcPat f) expr with
        | none => none
        | some (t, c) => some (buildExample f name expr t c) := by
  unfold convert_dax_to_example selectedBranch
  simp only []
  split_ifs with h1 h2 h3 h4 h5 h6
  · dsimp only [funcPat]
    cases searchAgg "DISTINCTCOUNT".toList expr with
    | none => rfl
    | some tc => rcases tc with ⟨t, c⟩; rfl
  · dsimp only [funcPat]
    cases searchAgg "SUM".toList expr with
    | none => rfl
    | some tc => rcases tc with ⟨t, c⟩; rfl
  · dsimp only [funcPat]
    cases searchAgg "AVERAGE".toList expr with
    | none => rfl
    | some tc => rcases tc with ⟨t, c⟩; rfl
  · dsimp only [funcPat]
    cases searchAgg "COUNT".toList expr with
    | none => rfl
    | some tc => rcases tc with ⟨t, c⟩; rfl
  · dsimp only [funcPat]
    cases searchAgg "MAX".toList expr with
    | none => rfl
    | some tc => rcases tc with ⟨t, c⟩; rfl
  · dsimp only [funcPat]
    cases searchAgg "MIN".toList expr with
    | none => rfl
    | some tc => rcases tc with ⟨t, c⟩; rfl
  · rfl

/-- Every failure is counted exactly once, as learned or as skipped. -/
lemma self_learn_count (c : Client) (failures : List TestResult) :
    (self_learn_from_failures c failures).learned
      + (self_learn_from_failures c failures).skipped = failures.length := by
  suffices h : ∀ acc : LearnSummary,
      (failures.foldl
          (fun acc failure =>
            match generate_correct_sql failure "template" with
            | none => { acc with skipped := acc.skipped + 1 }
            | some correct_sql =>
              match c.add_example failure.question correct_sql with
              | .ok _ => { acc with learned := acc.learned + 1 }
              | .error _ => { acc with skipped := acc.skipped + 1 }) acc).learned
        + (failures.foldl
            (fun acc failure =>
              match generate_correct_sql failure "template" with
              | none => { acc with skipped := acc.skipped + 1 }
              | some correct_sql =>
                match c.add_example failure.question correct_sql with
                | .ok _ => { acc with learned := acc.learned + 1 }
                | .error _ => { acc with skipped := acc.skipped + 1 }) acc).skipped
        = acc.learned + acc.skipped + failures.length by
    simpa [self_learn_from_failures] using h { learned := 0, skipped := 0 }
  induction failures with
  | nil => intro acc; simp
  | cons r rest ih =>
    intro acc
    cases hg : generate_correct_sql r "template" with
    | none => simp [List.foldl, hg, ih]; omega
    | some sql =>
      cases ha : c.add_example r.question sql with
      | ok _ => simp [List.foldl, hg, ha, ih]; omega
      | error _ => simp [List.foldl, hg, ha, ih]; omega

/-! ## Claims -/

/-- C1 (code bug): the spec rule divides `|agentValue - expectedValue|`
by `|expectedValue|`, but `test_single_case` divides by the SIGNED
`expected_value`.  Failing input: expected value `-100`, agent value `0`,
tolerance `0.01`.  The code computes `difference = 100 / (-100) = -1`,
which is `≤ 0.01`, and reports `pass`; the claimed rule computes
`100 / 100 = 1 > 0.01`, i.e. `fail`. -/
theorem c1_signed_denominator_divergence :
    (test_single_case (mkClient 0 (Except.ok ())) (mkDax (-100)) tcUsers (1/100)).status
        = "pass"
      ∧ (test_single_case (mkClient 0 (Except.ok ())) (mkDax (-100)) tcUsers (1/100)).difference
        = some (-1)
      ∧ ¬ (ratAbs ((0 : ℚ) - (-100)) / ratAbs (-100 : ℚ) ≤ 1/100) := by
  refine ⟨by decide, by decide, by decide⟩

/-- C2 (counterexample): an exception raised by `client.publish()` inside
`continuous_improvement_cycle` is NOT contained: with an agent answering 0
against a ground truth of 100 (so the single case fails and failures are
nonempty) and a publish operation that raises, the whole controller run
aborts with the publish exception instead of continuing to the next
iteration. -/
theorem c2_publish_exception_aborts :
    continuous_improvement_cycle (mkClient 0 (Except.error "publish failed")) (mkDax 100)
      [tcUsers] 3 = Except.error "publish failed" := rfl

/-- C2 (amended): an `add_example` exception is contained per exemplar —
`self_learn_from_failures` never raises, counts every failure exactly once
and books an `add_example` exception as `skipped` — but a `publish()`
exception is not caught in `continuous_improvement_cycle`: whenever an
iteration reaches the publishing step (accuracy below target and failures
present), a raising publish aborts the whole run with that exception. -/
theorem c2_amended_error_containment :
    (∀ (c : Client) (failures : List TestResult),
        (self_learn_from_failures c failures).learned
          + (self_learn_from_failures c failures).skipped = failures.length)
    ∧ (∀ (c : Client) (r : TestResult) (sql e : String),
        generate_correct_sql r "template" = some sql →
        c.add_example r.question sql = Except.error e →
        self_learn_from_failures c [r] = { learned := 0, skipped := 1 })
    ∧ (∀ (c : Client) (d : DaxOracle) (tcs : List TestCase) (n : Nat) (e : String),
        c.publish () = Except.error e →
        ¬ ((95 : ℚ)/100 ≤ ( run_test_suite c d ⟨[]⟩ tcs).2.accuracy) →
        get_failures ( run_test_suite c d ⟨[]⟩ tcs).1.results ≠ [] →
        continuous_improvement_cycle c d tcs (n + 1) = Except.error e) := by
  refine ⟨self_learn_count, ?_, ?_⟩
  · intro c r sql e hg ha
    simp [self_learn_from_failures, hg, ha]
  · intro c d tcs n e h1 h2 h3
    unfold continuous_improvement_cycle cic_loop
    rcases hp : run_test_suite c d ⟨[]⟩ tcs with ⟨st1, summary⟩
    rw [hp] at h2 h3
    simp only [hp, h2, if_false]
    simp [List.isEmpty_iff, h3, h1]

/-- C2 (amended, witness): at a concrete failing run with a raising
publish, the cycle aborts with exactly that exception. -/
theorem c2_amended_witness :
    continuous_improvement_cycle (mkClient 0 (Except.error "net down")) (mkDax 100)
      [tcUsers] 1 = Except.error "net down" :=
  c2_amended_error_containment.2.2 (mkClient 0 (Except.error "net down")) (mkDax 100)
    [tcUsers] 0 "net down" rfl (by decide) (by decide)

/-- C3 (counterexample): `qDateAdd` contains exactly one of the four
dialect mismatches (a `DATE_ADD` call), but `convert_spark_to_tsql` has no
`DATE_ADD` rewrite, so the issue count of the converted query is not
strictly smaller — it is unchanged. -/
theorem c3_dateadd_not_improved :
    dialectMismatchCount qDateAdd = 1
      ∧ ¬ (( validate_sql_syntax ( convert_spark_to_tsql qDateAdd)).issues.length
            < ( validate_sql_syntax qDateAdd).issues.length) := by
  refine ⟨by decide, by decide⟩

/-- C3 (amended): the strict decrease holds for the three mismatches the
rewriter actually handles — LIMIT, DATE_SUB and CURRENT_DATE, each in the
exact shape its rewrite regex targets, witnessed by single-mismatch
queries — but not for DATE_ADD: a query in which none of the three rewrite
patterns matches anywhere (in particular a query whose only mismatch is a
DATE_ADD call) is returned unchanged, so its issue count stays equal. -/
theorem c3_amended_rewrite_improvement :
    (∀ q : Str, searchLimit q = none → hasDateSubMatch q = false →
        hasCurrentDateOcc q = false →
        ( validate_sql_syntax ( convert_spark_to_tsql q)).issues.length
          = ( validate_sql_syntax q).issues.length)
    ∧ (dialectMismatchCount qLimit = 1
        ∧ ( validate_sql_syntax ( convert_spark_to_tsql qLimit)).issues.length
            < ( validate_sql_syntax qLimit).issues.length)
    ∧ (dialectMismatchCount qDateSub = 1
        ∧ ( validate_sql_syntax ( convert_spark_to_tsql qDateSub)).issues.length
            < ( validate_sql_syntax qDateSub).issues.length)
    ∧ (dialectMismatchCount qCurrentDate = 1
        ∧ ( validate_sql_syntax ( convert_spark_to_tsql qCurrentDate)).issues.length
            < ( validate_sql_syntax qCurrentDate).issues.length) := by
  refine ⟨fun q h1 h2 h3 => by rw [convert_id q h1 h2 h3], by decide, by decide, by decide⟩

/-- C3 (amended, witness): at the concrete DATE_ADD-only query the
converted issue count is equal, by the amended theorem's first part. -/
theorem c3_amended_witness :
    ( validate_sql_syntax ( convert_spark_to_tsql qDateAdd)).issues.length
      = ( validate_sql_syntax qDateAdd).issues.length :=
  c3_amended_rewrite_improvement.1 qDateAdd (by decide) (by decide) (by decide)

/-- C4: `convert_dax_to_example` recognizes exactly the six branch shapes
in their fixed precedence (`selectedBranch`): if no marker fires it
returns none; if the selected branch's `FUNC(Table[Column])` capture
fails it returns none (never raising); and on a successful capture it
returns the example whose question is the branch template over the
lower-cased measure name and whose SQL applies the branch aggregate to
the captured column (average casting to FLOAT), aliased to the measure
name, from the dbo-qualified captured table. -/
theorem c4_translator_characterization :
    ∀ (name expr : Str),
      (selectedBranch expr = none → convert_dax_to_example name expr = none)
      ∧ (∀ f, selectedBranch expr = some f → searchAgg (funcPat f) expr = none →
          convert_dax_to_example name expr = none)
      ∧ (∀ f t c, selectedBranch expr = some f → searchAgg (funcPat f) expr = some (t, c) →
          convert_dax_to_example name expr
            = some { question := questionFor f name
                     sql := sqlFor f t c name
                     source := "pbip_measure".toList
                     original_dax := expr }) := by
  intro name expr
  refine ⟨fun h => ?_, fun f h hs => ?_, fun f t c h hs => ?_⟩
  · rw [convert_eq_spec, h]
  · rw [convert_eq_spec, h]
    simp [hs]
  · rw [convert_eq_spec, h]
    simp [hs, buildExample]

/-- C4 (witness): the distinct-count measure of the repository's own demo
translates to the expected example. -/
theorem c4_witness :
    convert_dax_to_example "TotalUsers".toList "DISTINCTCOUNT(UsageMetrics[UserId])".toList
      = some { question := questionFor AggFunc.distinctCount "TotalUsers".toList
               sql := sqlFor AggFunc.distinctCount "UsageMetrics".toList "UserId".toList
                 "TotalUsers".toList
               source := "pbip_measure".toList
               original_dax := "DISTINCTCOUNT(UsageMetrics[UserId])".toList } :=
  (c4_translator_characterization "TotalUsers".toList
      "DISTINCTCOUNT(UsageMetrics[UserId])".toList).2.2
    AggFunc.distinctCount "UsageMetrics".toList "UserId".toList (by decide) (by decide)

/-- C5: branch precedence is fixed — an expression containing the
`DISTINCTCOUNT` marker always takes the distinct-count branch (never the
plain-count branch), and an expression containing the `SUMX` marker never
takes the sum branch. -/
theorem c5_branch_precedence :
    ∀ expr : Str,
      (containsSub "DISTINCTCOUNT".toList (toUpperStr expr) = true →
        selectedBranch expr = some AggFunc.distinctCount
        ∧ selectedBranch expr ≠ some AggFunc.count
        ∧ ∀ name, convert_dax_to_example name expr
            = match searchAgg "DISTINCTCOUNT".toList expr with
              | none => none
              | some (t, c) => some (buildExample AggFunc.distinctCount name expr t c))
      ∧ (containsSub "SUMX".toList (toUpperStr expr) = true →
          selectedBranch expr ≠ some AggFunc.sum) := by
  intro expr
  constructor
  · intro h
    have hsel : selectedBranch expr = some AggFunc.distinctCount := by
      unfold selectedBranch
      simp only []
      rw [if_pos h]
    refine ⟨hsel, by rw [hsel]; simp, fun name => ?_⟩
    rw [convert_eq_spec, hsel]
    dsimp only [funcPat]
  · intro h
    unfold selectedBranch
    simp only []
    split_ifs <;> simp_all

/-- C5 (witness): concrete precedence checks — a DISTINCTCOUNT expression
selects the distinct-count branch, a SUMX expression does not select the
sum branch. -/
theorem c5_witness :
    selectedBranch "DISTINCTCOUNT(UsageMetrics[UserId])".toList
        = some AggFunc.distinctCount
      ∧ selectedBranch "SUMX(Sales[Amount])".toList ≠ some AggFunc.sum :=
  ⟨((c5_branch_precedence "DISTINCTCOUNT(UsageMetrics[UserId])".toList).1 (by decide)).1,
    (c5_branch_precedence "SUMX(Sales[Amount])".toList).2 (by decide)⟩

/-- C6: `validate_sql_syntax` reports `valid` iff its issue list is empty,
and the issue list holds exactly one entry per firing detector: the
`LIMIT`, `DATE_SUB`, `DATE_ADD`-without-`DATEADD` and
`CURRENT_DATE`-without-`GETDATE()` dialect checks on the upper-cased
query, plus the structure entry when none of SELECT/INSERT/UPDATE/DELETE
occurs. -/
theorem c6_validate_characterization :
    ∀ sql : Str,
      (( validate_sql_syntax sql).valid = true ↔ ( validate_sql_syntax sql).issues = [])
      ∧ (SqlIssue.limitIssue ∈ ( validate_sql_syntax sql).issues
          ↔ containsSub " LIMIT ".toList (toUpperStr sql) = true)
      ∧ (SqlIssue.dateSubIssue ∈ ( validate_sql_syntax sql).issues
          ↔ containsSub "DATE_SUB(".toList (toUpperStr sql) = true)
      ∧ (SqlIssue.dateAddIssue ∈ ( validate_sql_syntax sql).issues
          ↔ (containsSub "DATE_ADD(".toList (toUpperStr sql)
              && !containsSub "DATEADD(".toList (toUpperStr sql)) = true)
      ∧ (SqlIssue.currentDateIssue ∈ ( validate_sql_syntax sql).issues
          ↔ (containsSub "CURRENT_DATE".toList (toUpperStr sql)
              && !containsSub "GETDATE()".toList (toUpperStr sql)) = true)
      ∧ (SqlIssue.structureIssue ∈ ( validate_sql_syntax sql).issues
          ↔ (containsSub "SELECT".toList (toUpperStr sql)
              || containsSub "INSERT".toList (toUpperStr sql)
              || containsSub "UPDATE".toList (toUpperStr sql)
              || containsSub "DELETE".toList (toUpperStr sql)) = false)
      ∧ ( validate_sql_syntax sql).issues.length
          = (if containsSub " LIMIT ".toList (toUpperStr sql) then 1 else 0)
            + (if containsSub "DATE_SUB(".toList (toUpperStr sql) then 1 else 0)
            + (if containsSub "DATE_ADD(".toList (toUpperStr sql)
                  && !containsSub "DATEADD(".toList (toUpperStr sql) then 1 else 0)
            + (if containsSub "CURRENT_DATE".toList (toUpperStr sql)
                  && !containsSub "GETDATE()".toList (toUpperStr sql) then 1 else 0)
            + (if !(containsSub "SELECT".toList (toUpperStr sql)
                  || containsSub "INSERT".toList (toUpperStr sql)
                  || containsSub "UPDATE".toList (toUpperStr sql)
                  || containsSub "DELETE".toList (toUpperStr sql)) then 1 else 0) := by
  intro sql
  unfold validate_sql_syntax
  simp only []
  cases h1 : containsSub " LIMIT ".toList (toUpperStr sql) <;>
    cases h2 : containsSub "DATE_SUB(".toList (toUpperStr sql) <;>
      cases h3 : containsSub "DATE_ADD(".toList (toUpperStr sql) <;>
        cases h4 : containsSub "DATEADD(".toList (toUpperStr sql) <;>
          cases h5 : containsSub "CURRENT_DATE".toList (toUpperStr sql) <;>
            cases h6 : containsSub "GETDATE()".toList (toUpperStr sql) <;>
              cases h7 : containsSub "SELECT".toList (toUpperStr sql) <;>
                cases h8 : containsSub "INSERT".toList (toUpperStr sql) <;>
                  cases h9 : containsSub "UPDATE".toList (toUpperStr sql) <;>
                    cases h10 : containsSub "DELETE".toList (toUpperStr sql) <;>
                      decide

/-- C7: a service exception during a single case yields status `error`
with the exception message verbatim; every status is one of pass, fail,
error; a full run still produces one result per input case; and
`get_failures` returns exactly the `fail` results, never `error` ones. -/
theorem c7_error_isolation :
    (∀ (c : Client) (d : DaxOracle) (tc : TestCase) (tol : ℚ) (e : String),
        c.query tc.question = Except.error e →
        (test_single_case c d tc tol).status = "error"
          ∧ (test_single_case c d tc tol).error = some e)
    ∧ (∀ (c : Client) (d : DaxOracle) (tc : TestCase) (tol : ℚ) (resp : AgentResponse)
          (v : ℚ) (e : String),
        c.query tc.question = Except.ok resp →
        extract_numeric_value resp = Except.ok v →
        d.evaluate_dax tc.expected_dax = Except.error e →
        (test_single_case c d tc tol).status = "error"
          ∧ (test_single_case c d tc tol).error = some e)
    ∧ (∀ (c : Client) (d : DaxOracle) (tc : TestCase) (tol : ℚ),
        (test_single_case c d tc tol).status = "pass"
          ∨ (test_single_case c d tc tol).status = "fail"
          ∨ (test_single_case c d tc tol).status = "error")
    ∧ (∀ (c : Client) (d : DaxOracle) (st : TesterState) (tcs : List TestCase),
        (( run_test_suite c d st tcs).1.results).length = tcs.length)
    ∧ (∀ (rs : List TestResult) (r : TestResult),
        (r ∈ get_failures rs ↔ (r ∈ rs ∧ r.status = "fail"))
          ∧ (r ∈ get_failures rs → r.status ≠ "error")) := by
  refine ⟨?_, ?_, status_trichotomy, ?_, ?_⟩
  · intro c d tc tol e h
    refine ⟨by simp [test_single_case, h], by simp [test_single_case, h]⟩
  · intro c d tc tol resp v e hq hx hd
    refine ⟨by simp [test_single_case, hq, hx, hd], by simp [test_single_case, hq, hx, hd]⟩
  · intro c d st tcs
    rw [run_test_suite_results]
    simp
  · intro rs r
    constructor
    · simp [get_failures, List.mem_filter]
    · intro hm hcontra
      have := (List.mem_filter.mp hm).2
      rw [hcontra] at this
      simp at this

/-- C7 (witness): an agent exception at a concrete case yields an `error`
result carrying the message. -/
theorem c7_witness :
    (test_single_case (errClient "boom") (mkDax 100) tcUsers (1/100)).status = "error"
      ∧ (test_single_case (errClient "boom") (mkDax 100) tcUsers (1/100)).error
        = some "boom" :=
  c7_error_isolation.1 (errClient "boom") (mkDax 100) tcUsers (1/100) "boom" rfl

/-- C8: `run_test_suite` computes accuracy as passed / total when total is
nonzero, and exactly 0 for an empty test-case sequence (total = 0), the
guard `if total > 0` standing in for the absent division fault. -/
theorem c8_accuracy_guard :
    ∀ (c : Client) (d : DaxOracle) (st : TesterState) (tcs : List TestCase),
      (( run_test_suite c d st tcs).2.total = 0 →
        ( run_test_suite c d st tcs).2.accuracy = 0)
      ∧ (( run_test_suite c d st tcs).2.total ≠ 0 →
          ( run_test_suite c d st tcs).2.accuracy
            = (( run_test_suite c d st tcs).2.passed : ℚ)
                / (( run_test_suite c d st tcs).2.total : ℚ))
      ∧ (tcs = [] → ( run_test_suite c d st tcs).2.accuracy = 0) := by
  intro c d st tcs
  have htot : ( run_test_suite c d st tcs).2.total
      = ( run_test_suite c d st tcs).1.results.length := rfl
  have hacc : ( run_test_suite c d st tcs).2.accuracy
      = if 0 < ( run_test_suite c d st tcs).2.total
        then (( run_test_suite c d st tcs).2.passed : ℚ)
              / (( run_test_suite c d st tcs).2.total : ℚ)
        else 0 := rfl
  refine ⟨fun h => ?_, fun h => ?_, fun h => ?_⟩
  · rw [hacc, h]
    simp
  · rw [hacc, if_pos (Nat.pos_of_ne_zero h)]
  · have h0 : ( run_test_suite c d st tcs).2.total = 0 := by
      rw [htot, run_test_suite_results, h]
      simp
    rw [hacc, h0]
    simp

/-- C8 (witness): the empty suite reports accuracy exactly 0. -/
theorem c8_witness :
    ( run_test_suite (mkClient 0 (Except.ok ())) (mkDax 0) ⟨[]⟩ []).2.accuracy = 0 :=
  (c8_accuracy_guard (mkClient 0 (Except.ok ())) (mkDax 0) ⟨[]⟩ []).2.2 rfl

/-- C9: `run_test_suite` starts from a fresh empty result list — its
output does not depend on the tester's previous results — and produces
exactly one result per test case, in input order. -/
theorem c9_fresh_ordered_results :
    ∀ (c : Client) (d : DaxOracle) (st1 st2 : TesterState) (tcs : List TestCase),
      ( run_test_suite c d st1 tcs).1.results
          = tcs.map (fun tc => test_single_case c d tc (1/100))
        ∧ run_test_suite c d st1 tcs = run_test_suite c d st2 tcs :=
  fun c d st1 _st2 tcs => ⟨run_test_suite_results c d st1 tcs, rfl⟩

/-- C10: `convert_spark_to_tsql` is the identity on every query in which
none of its three rewrite patterns occurs: no whitespace-delimited
`LIMIT <digits>` clause (`searchLimit` finds nothing), no
`DATE_SUB(<arg>, <digits>)` call and no `CURRENT_DATE` token, all
case-insensitive. -/
theorem c10_convert_identity :
    ∀ q : Str, searchLimit q = none → hasDateSubMatch q = false →
      hasCurrentDateOcc q = false → convert_spark_to_tsql q = q :=
  convert_id

/-- C10 (witness): a concrete already-conformant T-SQL query is returned
character-for-character unchanged. -/
theorem c10_witness : convert_spark_to_tsql qTsqlOk = qTsqlOk :=
  c10_convert_identity qTsqlOk (by decide) (by decide) (by decide)
